import Mathlib

/-!
Verification of the TCP SYN probe builder (`src/networking/tcp.rs`) and the
error taxonomy (`src/errors.rs`) of the sukyana scanner.

The packet buffer is modelled as a `List Nat` of byte values.  The pnet
header accessors (`MutableIpv4Packet`, `MutableTcpPacket`, `Ipv4Packet`,
`TcpPacket`) are embedded as pure functions over such buffers, byte for
byte: sub-byte fields use the same shift/mask arithmetic as the generated
pnet accessors, written with `/`, `%` and `*` on `Nat`.  Machine integers
are `Nat` with the wrapping made explicit where the Rust code truncates.
The two random draws (`rng.gen()` for the IPv4 identification and the TCP
sequence/acknowledgement numbers) are passed in as explicit arguments.

The `osi_layers` module (the `Layer` match-specification types and the
transport engine `NetworkLayer::send_and_receive`) is not part of the
sources; those parts are modelled from the specification and are marked as
such in their doc comments.
-/

set_option autoImplicit false
set_option maxRecDepth 4000

/-- A byte buffer: the shallow embedding of `[u8]`. -/
abbrev Buf := List Nat

/-- Read the byte at index `i` (reads in the embedded code are always in
bounds; `0` is the out-of-range default). -/
def getByte (buf : Buf) (i : Nat) : Nat := buf.getD i 0

/-- Write the byte at index `i`. -/
def setByte (buf : Buf) (i v : Nat) : Buf := buf.set i v

/-- High byte of a 16-bit big-endian value, as pnet stores it: `(v >> 8) as u8`. -/
def byteHi (v : Nat) : Nat := v / 256 % 256

/-- Low byte of a 16-bit big-endian value: `v as u8`. -/
def byteLo (v : Nat) : Nat := v % 256

/-- Store a 16-bit big-endian value at bytes `i`, `i+1`. -/
def set16 (buf : Buf) (i v : Nat) : Buf :=
  setByte (setByte buf i (byteHi v)) (i + 1) (byteLo v)

/-- Store a 32-bit big-endian value at bytes `i`..`i+3`. -/
def set32 (buf : Buf) (i v : Nat) : Buf :=
  setByte (setByte (setByte (setByte buf i (v / 16777216 % 256))
    (i + 1) (v / 65536 % 256)) (i + 2) (byteHi v)) (i + 3) (byteLo v)

/-- An IPv4 address, `std::net::Ipv4Addr`: four octets. -/
structure Ipv4Addr where
  a : Nat
  b : Nat
  c : Nat
  d : Nat
deriving DecidableEq, Repr

/-- A protocol-agnostic network address, `std::net::IpAddr`.  Only the V4
variant is ever constructed in this codebase (the probe builder is
IPv4-only). -/
inductive IpAddr where
  | V4 : Ipv4Addr → IpAddr
deriving DecidableEq

/-- A link-layer (MAC) address: six octets. -/
structure MacAddr where
  m0 : Nat
  m1 : Nat
  m2 : Nat
  m3 : Nat
  m4 : Nat
  m5 : Nat
deriving DecidableEq, Repr

/-- Modelled from the spec: the `Link` variant payload of the Match
Specification (`osi_layers` is not among the sources).  It carries an
optional expected source and destination MAC; `none` means "don't care". -/
structure DatalinkLayer where
  src_mac : Option MacAddr
  dest_mac : Option MacAddr
deriving DecidableEq

/-- Modelled from the spec: the `Network` variant payload of the Match
Specification: an optional nested link context plus optional expected
source/destination network addresses. -/
structure NetworkLayer where
  datalink_layer : Option DatalinkLayer
  src_addr : Option IpAddr
  dest_addr : Option IpAddr
deriving DecidableEq

/-- Modelled from the spec: the `Transport` variant payload of the Match
Specification: an optional nested network context plus optional expected
source/destination ports. -/
structure TransportLayer where
  network_layer : Option NetworkLayer
  src_port : Option Nat
  dest_port : Option Nat
deriving DecidableEq

/-- Modelled from the spec: the Match Specification, a tagged variant
selecting the deepest layer at which matching is anchored.  The source
constructs `Layer::Four(transport_layer)`. -/
inductive Layer where
  | Two : DatalinkLayer → Layer
  | Three : NetworkLayer → Layer
  | Four : TransportLayer → Layer
deriving DecidableEq

/-- The error taxonomy of `src/errors.rs` (`ScannerError`). -/
inductive ScannerError where
  | CantFindRouterAddress
  | CantFindInterface
  | CantFindMacAddress
  | CantCreateEthernetPacket
  | CantCreateIpv4Packet
  | CantCreateTcpPacket
  | CantCreateIcmpPacket
  | UnsupportedIpVersion
  | UnexpectedTcpFlags
  | UnexpectedIcmpResponse
deriving DecidableEq, Repr

/-- The channel error taxonomy of `src/errors.rs` (`ChannelError`). -/
inductive ChannelError where
  | UnexpectedChannelType
  | SendError
deriving DecidableEq, Repr

/-- Constant from `tcp.rs`: `IPV4_HEADER_SIZE`. -/
def IPV4_HEADER_SIZE : Nat := 20

/-- Constant from `tcp.rs`: `TCP_HEADER_SIZE`. -/
def TCP_HEADER_SIZE : Nat := 20

/-- Constant from `tcp.rs`: `TCP_DATA_SIZE`. -/
def TCP_DATA_SIZE : Nat := 0

/-- Constant from `tcp.rs`: `TTL`. -/
def TTL : Nat := 64

/-- pnet constant `Ipv4Flags::DontFragment = 0b010`. -/
def Ipv4Flags.DontFragment : Nat := 2

/-- pnet constant `TcpFlags::SYN = 0b000000010` (bit 1 of the nine-bit
flag field). -/
def TcpFlags.SYN : Nat := 2

/-- pnet constant `IpNextHeaderProtocols::Tcp = 6`. -/
def IpNextHeaderProtocols.Tcp : Nat := 6

namespace MutableIpv4Packet

/-- pnet `MutableIpv4Packet::minimum_packet_size()`: 20 bytes of fixed header. -/
def minimum_packet_size : Nat := 20

/-- pnet `MutableIpv4Packet::new`: `Some` iff the buffer can hold the fixed
header. -/
def new (buf : Buf) : Option Buf :=
  if minimum_packet_size ≤ buf.length then some buf else none

/-- pnet `set_version`: the high nibble of byte 0. -/
def set_version (buf : Buf) (v : Nat) : Buf :=
  setByte buf 0 (getByte buf 0 % 16 + v % 16 * 16)

/-- pnet `set_header_length`: the low nibble of byte 0. -/
def set_header_length (buf : Buf) (v : Nat) : Buf :=
  setByte buf 0 (getByte buf 0 / 16 * 16 + v % 16)

/-- pnet `set_source`: octets at bytes 12..15. -/
def set_source (buf : Buf) (ip : Ipv4Addr) : Buf :=
  setByte (setByte (setByte (setByte buf 12 ip.a) 13 ip.b) 14 ip.c) 15 ip.d

/-- pnet `set_destination`: octets at bytes 16..19. -/
def set_destination (buf : Buf) (ip : Ipv4Addr) : Buf :=
  setByte (setByte (setByte (setByte buf 16 ip.a) 17 ip.b) 18 ip.c) 19 ip.d

/-- pnet `set_total_length`: 16-bit big-endian at bytes 2..3. -/
def set_total_length (buf : Buf) (v : Nat) : Buf := set16 buf 2 v

/-- pnet `set_identification`: 16-bit big-endian at bytes 4..5. -/
def set_identification (buf : Buf) (v : Nat) : Buf := set16 buf 4 v

/-- pnet `set_flags`: the top three bits of byte 6. -/
def set_flags (buf : Buf) (v : Nat) : Buf :=
  setByte buf 6 (getByte buf 6 % 32 + v % 8 * 32)

/-- pnet `set_ttl`: byte 8. -/
def set_ttl (buf : Buf) (v : Nat) : Buf := setByte buf 8 v

/-- pnet `set_next_level_protocol`: byte 9. -/
def set_next_level_protocol (buf : Buf) (v : Nat) : Buf := setByte buf 9 v

/-- pnet `set_checksum`: 16-bit big-endian at bytes 10..11. -/
def set_checksum (buf : Buf) (v : Nat) : Buf := set16 buf 10 v

end MutableIpv4Packet

namespace Ipv4Packet

/-- pnet `Ipv4Packet::minimum_packet_size()`. -/
def minimum_packet_size : Nat := 20

/-- pnet `Ipv4Packet::new`: `Some` iff the buffer holds at least a fixed
header (the decode check applied to the matched response payload). -/
def new (buf : Buf) : Option Buf :=
  if minimum_packet_size ≤ buf.length then some buf else none

/-- pnet `get_version`: high nibble of byte 0. -/
def get_version (buf : Buf) : Nat := getByte buf 0 / 16 % 16

/-- pnet `get_header_length`: low nibble of byte 0. -/
def get_header_length (buf : Buf) : Nat := getByte buf 0 % 16

/-- pnet `get_total_length`: 16-bit big-endian at bytes 2..3. -/
def get_total_length (buf : Buf) : Nat := getByte buf 2 * 256 + getByte buf 3

/-- pnet `get_identification`: 16-bit big-endian at bytes 4..5. -/
def get_identification (buf : Buf) : Nat := getByte buf 4 * 256 + getByte buf 5

/-- pnet `get_flags`: top three bits of byte 6. -/
def get_flags (buf : Buf) : Nat := getByte buf 6 / 32 % 8

/-- pnet `get_ttl`: byte 8. -/
def get_ttl (buf : Buf) : Nat := getByte buf 8

/-- pnet `get_next_level_protocol`: byte 9. -/
def get_next_level_protocol (buf : Buf) : Nat := getByte buf 9

/-- pnet `get_checksum`: 16-bit big-endian at bytes 10..11. -/
def get_checksum (buf : Buf) : Nat := getByte buf 10 * 256 + getByte buf 11

/-- pnet `get_source`: octets at bytes 12..15. -/
def get_source (buf : Buf) : Ipv4Addr :=
  ⟨getByte buf 12, getByte buf 13, getByte buf 14, getByte buf 15⟩

/-- pnet `get_destination`: octets at bytes 16..19. -/
def get_destination (buf : Buf) : Ipv4Addr :=
  ⟨getByte buf 16, getByte buf 17, getByte buf 18, getByte buf 19⟩

end Ipv4Packet

namespace MutableTcpPacket

/-- pnet `MutableTcpPacket::minimum_packet_size()`: 20 bytes of fixed header. -/
def minimum_packet_size : Nat := 20

/-- pnet `MutableTcpPacket::new`: `Some` iff the buffer can hold the fixed
header. -/
def new (buf : Buf) : Option Buf :=
  if minimum_packet_size ≤ buf.length then some buf else none

/-- pnet `set_source`: 16-bit big-endian at bytes 0..1 of the TCP slice. -/
def set_source (buf : Buf) (v : Nat) : Buf := set16 buf 0 v

/-- pnet `set_destination`: 16-bit big-endian at bytes 2..3. -/
def set_destination (buf : Buf) (v : Nat) : Buf := set16 buf 2 v

/-- pnet `set_sequence`: 32-bit big-endian at bytes 4..7. -/
def set_sequence (buf : Buf) (v : Nat) : Buf := set32 buf 4 v

/-- pnet `set_acknowledgement`: 32-bit big-endian at bytes 8..11. -/
def set_acknowledgement (buf : Buf) (v : Nat) : Buf := set32 buf 8 v

/-- pnet `set_reserved`: bits 3..1 of byte 12 (`(b & 0xF1) | ((v & 7) << 1)`). -/
def set_reserved (buf : Buf) (v : Nat) : Buf :=
  setByte buf 12 (getByte buf 12 / 16 * 16 + getByte buf 12 % 2 + v % 8 * 2)

/-- pnet `set_flags`: the nine-bit flag field, bit 0 of byte 12 and all of
byte 13 (`b12 = (b12 & 0xFE) | ((v >> 8) & 1); b13 = v & 0xFF`). -/
def set_flags (buf : Buf) (v : Nat) : Buf :=
  setByte (setByte buf 12 (getByte buf 12 / 2 * 2 + v / 256 % 2)) 13 (v % 256)

/-- pnet `set_urgent_ptr`: 16-bit big-endian at bytes 18..19. -/
def set_urgent_ptr (buf : Buf) (v : Nat) : Buf := set16 buf 18 v

/-- pnet `set_window`: 16-bit big-endian at bytes 14..15. -/
def set_window (buf : Buf) (v : Nat) : Buf := set16 buf 14 v

/-- pnet `set_data_offset`: the high nibble of byte 12. -/
def set_data_offset (buf : Buf) (v : Nat) : Buf :=
  setByte buf 12 (getByte buf 12 % 16 + v % 16 * 16)

/-- pnet `set_checksum`: 16-bit big-endian at bytes 16..17. -/
def set_checksum (buf : Buf) (v : Nat) : Buf := set16 buf 16 v

end MutableTcpPacket

namespace TcpPacket

/-- pnet `TcpPacket::get_source`. -/
def get_source (buf : Buf) : Nat := getByte buf 0 * 256 + getByte buf 1

/-- pnet `TcpPacket::get_destination`. -/
def get_destination (buf : Buf) : Nat := getByte buf 2 * 256 + getByte buf 3

/-- pnet `TcpPacket::get_sequence`. -/
def get_sequence (buf : Buf) : Nat :=
  getByte buf 4 * 16777216 + getByte buf 5 * 65536 + getByte buf 6 * 256 + getByte buf 7

/-- pnet `TcpPacket::get_acknowledgement`. -/
def get_acknowledgement (buf : Buf) : Nat :=
  getByte buf 8 * 16777216 + getByte buf 9 * 65536 + getByte buf 10 * 256 + getByte buf 11

/-- pnet `TcpPacket::get_data_offset`: high nibble of byte 12. -/
def get_data_offset (buf : Buf) : Nat := getByte buf 12 / 16 % 16

/-- pnet `TcpPacket::get_reserved`: bits 3..1 of byte 12. -/
def get_reserved (buf : Buf) : Nat := getByte buf 12 / 2 % 8

/-- pnet `TcpPacket::get_flags`: the nine-bit flag field. -/
def get_flags (buf : Buf) : Nat := getByte buf 12 % 2 * 256 + getByte buf 13

/-- pnet `TcpPacket::get_window`. -/
def get_window (buf : Buf) : Nat := getByte buf 14 * 256 + getByte buf 15

/-- pnet `TcpPacket::get_checksum`. -/
def get_checksum (buf : Buf) : Nat := getByte buf 16 * 256 + getByte buf 17

/-- pnet `TcpPacket::get_urgent_ptr`. -/
def get_urgent_ptr (buf : Buf) : Nat := getByte buf 18 * 256 + getByte buf 19

end TcpPacket

/-- pnet `util::sum_be_words` word decomposition: consecutive big-endian
16-bit words of a byte buffer; a trailing odd byte counts as the high byte
of a final word, exactly as the pnet loop adds `(last as u32) << 8`. -/
def wordsOf : Buf → List Nat
  | [] => []
  | [b] => [b * 256]
  | b1 :: b2 :: rest => (b1 * 256 + b2) :: wordsOf rest

/-- pnet `util::sum_be_words(data, skipword)`: the sum of the big-endian
words of `data` with the word at index `skipword` skipped. -/
def sumBeWords (data : Buf) (skipword : Nat) : Nat :=
  ((wordsOf data).set skipword 0).sum

/-- Fuelled carry folding (the pnet `finalize_checksum` loop body).  The
fuel only serves structural recursion; `s` itself is always enough fuel. -/
def foldCarryAux : Nat → Nat → Nat
  | 0, s => s
  | fuel + 1, s => if s < 65536 then s else foldCarryAux fuel (s / 65536 + s % 65536)

/-- pnet `finalize_checksum` carry loop: fold the carries of a one's
complement accumulator until it fits in 16 bits. -/
def foldCarry (s : Nat) : Nat := foldCarryAux s s

/-- pnet `finalize_checksum`: fold the carries, then complement as `u16`. -/
def finalizeChecksum (s : Nat) : Nat := 65535 - foldCarry s

/-- pnet `ipv4::checksum`: one's complement checksum over the header
(`header_length * 4` bytes), skipping the checksum word (index 5). -/
def ipv4.checksum (buf : Buf) : Nat :=
  finalizeChecksum (sumBeWords (buf.take (Ipv4Packet.get_header_length buf * 4)) 5)

/-- pnet `util::ipv4_word_sum`: an IPv4 address as two big-endian words. -/
def ipv4WordSum (ip : Ipv4Addr) : Nat := ip.a * 256 + ip.b + (ip.c * 256 + ip.d)

/-- pnet `tcp::ipv4_checksum` (no options, no payload, no extra data):
one's complement checksum over the pseudo-header (source, destination,
protocol 6, segment length) and the segment, skipping the checksum word
(index 8). -/
def tcp.ipv4_checksum (seg : Buf) (source destination : Ipv4Addr) : Nat :=
  finalizeChecksum (ipv4WordSum source + ipv4WordSum destination +
    IpNextHeaderProtocols.Tcp + seg.length + sumBeWords seg 8)

namespace Tcp

/-- The IPv4 header construction of `Tcp::build_syn_packet` (tcp.rs lines
40-48), up to but excluding the checksum write: the setter calls in source
order. -/
def build_ipv4_header_pre (src_ip dest_ip : Ipv4Addr) (ident : Nat) (buf : Buf) : Buf :=
  let b := MutableIpv4Packet.set_version buf 4
  let b := MutableIpv4Packet.set_header_length b 5
  let b := MutableIpv4Packet.set_source b src_ip
  let b := MutableIpv4Packet.set_destination b dest_ip
  let b := MutableIpv4Packet.set_total_length b (IPV4_HEADER_SIZE + TCP_HEADER_SIZE + TCP_DATA_SIZE)
  let b := MutableIpv4Packet.set_identification b ident
  let b := MutableIpv4Packet.set_flags b Ipv4Flags.DontFragment
  let b := MutableIpv4Packet.set_ttl b TTL
  MutableIpv4Packet.set_next_level_protocol b IpNextHeaderProtocols.Tcp

/-- The IPv4 header construction of `Tcp::build_syn_packet` (tcp.rs lines
40-50): the setters, then the checksum computed over the finished header
and stored. -/
def build_ipv4_header (src_ip dest_ip : Ipv4Addr) (ident : Nat) (buf : Buf) : Buf :=
  let b := build_ipv4_header_pre src_ip dest_ip ident buf
  MutableIpv4Packet.set_checksum b (ipv4.checksum b)

/-- The TCP header construction of `Tcp::build_syn_packet` (tcp.rs lines
52-61), up to but excluding the checksum write: the setter calls in source
order, on the slice starting at `IPV4_HEADER_SIZE`. -/
def build_tcp_header_pre (src_port dest_port seq ack : Nat) (buf : Buf) : Buf :=
  let b := MutableTcpPacket.set_source buf src_port
  let b := MutableTcpPacket.set_destination b dest_port
  let b := MutableTcpPacket.set_sequence b seq
  let b := MutableTcpPacket.set_acknowledgement b ack
  let b := MutableTcpPacket.set_reserved b 0
  let b := MutableTcpPacket.set_flags b TcpFlags.SYN
  let b := MutableTcpPacket.set_urgent_ptr b 0
  let b := MutableTcpPacket.set_window b 1024
  MutableTcpPacket.set_data_offset b 5

/-- The TCP header construction of `Tcp::build_syn_packet` (tcp.rs lines
52-64): the setters, then the pseudo-header checksum computed with the
real source/destination addresses and stored. -/
def build_tcp_header (src_port dest_port seq ack : Nat) (src_ip dest_ip : Ipv4Addr)
    (buf : Buf) : Buf :=
  let b := build_tcp_header_pre src_port dest_port seq ack buf
  MutableTcpPacket.set_checksum b (tcp.ipv4_checksum b src_ip dest_ip)

/-- `Tcp::build_syn_packet` (tcp.rs lines 30-67).  The buffer starts as 40
zero bytes; the IPv4 header is written in place, the TCP header is written
through the mutable view of the slice at offset `IPV4_HEADER_SIZE`.  The
random draws `ident`, `seq`, `ack` stand for the three `rng.gen()` calls. -/
def build_syn_packet (src_ip : Ipv4Addr) (src_port : Nat) (dest_ip : Ipv4Addr)
    (dest_port : Nat) (ident seq ack : Nat) : Buf :=
  let tcp_packet := List.replicate (IPV4_HEADER_SIZE + TCP_HEADER_SIZE + TCP_DATA_SIZE) 0
  let tcp_packet := build_ipv4_header src_ip dest_ip ident tcp_packet
  tcp_packet.take IPV4_HEADER_SIZE ++
    build_tcp_header src_port dest_port seq ack src_ip dest_ip
      (tcp_packet.drop IPV4_HEADER_SIZE)

/-- `Tcp::build_syn_packet` with the two pnet constructor checks made
explicit instead of `unwrap`: `MutableIpv4Packet::new` returning `None` is
the `CantCreateIpv4Packet` condition and `MutableTcpPacket::new` returning
`None` is the `CantCreateTcpPacket` condition (errors.rs lines 13-16). -/
def build_syn_packet_checked (src_ip : Ipv4Addr) (src_port : Nat) (dest_ip : Ipv4Addr)
    (dest_port : Nat) (ident seq ack : Nat) : Except ScannerError Buf :=
  let tcp_packet := List.replicate (IPV4_HEADER_SIZE + TCP_HEADER_SIZE + TCP_DATA_SIZE) 0
  match MutableIpv4Packet.new tcp_packet with
  | none => Except.error ScannerError.CantCreateIpv4Packet
  | some buf =>
    let buf := build_ipv4_header src_ip dest_ip ident buf
    match MutableTcpPacket.new (buf.drop IPV4_HEADER_SIZE) with
    | none => Except.error ScannerError.CantCreateTcpPacket
    | some tcp_buf =>
      Except.ok (buf.take IPV4_HEADER_SIZE ++
        build_tcp_header src_port dest_port seq ack src_ip dest_ip tcp_buf)

/-- The Match Specification constructed by `Tcp::send_syn_packet` (tcp.rs
lines 82-97): a `Layer::Four` whose transport layer expects the peer port
as source and the local port as destination, nesting a network layer that
expects the peer address as source and the local address as destination,
with no datalink context. -/
def syn_match_spec (src_ip : Ipv4Addr) (src_port : Nat) (dest_ip : Ipv4Addr)
    (dest_port : Nat) : Layer :=
  let network_layer : NetworkLayer :=
    { datalink_layer := none
      src_addr := some (IpAddr.V4 dest_ip)
      dest_addr := some (IpAddr.V4 src_ip) }
  let transport_layer : TransportLayer :=
    { network_layer := some network_layer
      src_port := some dest_port
      dest_port := some src_port }
  Layer.Four transport_layer

/-- `Tcp::send_syn_packet` (tcp.rs lines 72-118).  The transport engine
`NetworkLayer::send_and_receive` lives in the `osi_layers` module, which is
not among the sources, so it is taken as the explicit argument `engine`
(per the spec it returns the matched payload and round-trip time, or an
error); `?` on its result is the `Except` bind.  The diagnostic
`Ipv4Packet::new` decode of a matched payload only feeds the debug log, so
both decode outcomes produce the same `Ok` value. -/
def send_syn_packet {ε : Type}
    (engine : Ipv4Addr → Ipv4Addr → Buf → Layer → Nat → Except ε (Option Buf × Option Nat))
    (value : Nat) (src_ip : Ipv4Addr) (src_port : Nat) (dest_ip : Ipv4Addr)
    (dest_port : Nat) (ident seq ack : Nat) : Except ε (Option Buf × Option Nat) :=
  let packet := build_syn_packet src_ip src_port dest_ip dest_port ident seq ack
  let layer := syn_match_spec src_ip src_port dest_ip dest_port
  match engine src_ip dest_ip packet layer value with
  | Except.error e => Except.error e
  | Except.ok (response, rtt) =>
    match response with
    | some packet =>
      match Ipv4Packet.new packet with
      | some _ => Except.ok (some packet, rtt)
      | none => Except.ok (some packet, rtt)
    | none => Except.ok (none, none)

end Tcp

/-- Modelled from the spec: a frame already decoded down to the transport
layer, the shape the Match Specification Evaluator (4.3, in the missing
`osi_layers` module) inspects when a TCP-over-IPv4 frame arrives: ethernet
source/destination MAC, IPv4 source/destination address, TCP
source/destination port. -/
structure Frame where
  eth_src : MacAddr
  eth_dest : MacAddr
  ip_src : Ipv4Addr
  ip_dest : Ipv4Addr
  tcp_src : Nat
  tcp_dest : Nat

/-- Modelled from the spec (4.3): a populated (`Some`) field must equal the
decoded value, an unpopulated field imposes no constraint. -/
def fieldMatches {α : Type} [DecidableEq α] : Option α → α → Bool
  | none, _ => true
  | some v, x => decide (v = x)

/-- Modelled from the spec (4.3): link-layer matching checks the populated
MAC fields. -/
def DatalinkLayer.matchesFrame (d : DatalinkLayer) (f : Frame) : Bool :=
  fieldMatches d.src_mac f.eth_src && fieldMatches d.dest_mac f.eth_dest

/-- Modelled from the spec (4.3): network-layer matching first recurses
into the nested link context if present, then checks the populated address
fields. -/
def NetworkLayer.matchesFrame (n : NetworkLayer) (f : Frame) : Bool :=
  (match n.datalink_layer with
   | none => true
   | some d => d.matchesFrame f) &&
  fieldMatches n.src_addr (IpAddr.V4 f.ip_src) &&
  fieldMatches n.dest_addr (IpAddr.V4 f.ip_dest)

/-- Modelled from the spec (4.3): transport-layer matching first recurses
into the nested network context if present, then checks the populated port
fields. -/
def TransportLayer.matchesFrame (t : TransportLayer) (f : Frame) : Bool :=
  (match t.network_layer with
   | none => true
   | some n => n.matchesFrame f) &&
  fieldMatches t.src_port f.tcp_src &&
  fieldMatches t.dest_port f.tcp_dest

/-- Modelled from the spec (4.3): `matches(spec, frame)` anchored at the
deepest layer the spec selects. -/
def Layer.matchesFrame : Layer → Frame → Bool
  | Layer.Two d, f => d.matchesFrame f
  | Layer.Three n, f => n.matchesFrame f
  | Layer.Four t, f => t.matchesFrame f

/-- The finished IPv4 header of a SYN probe as an explicit byte list:
version/IHL byte `0x45`, zero DSCP/ECN, total length 40, identification
`ident`, flags/fragment bytes `0x40 0x00` (don't fragment), TTL 64,
protocol 6, checksum `c`, then source and destination octets. -/
def ipv4HeaderBytes (src_ip dest_ip : Ipv4Addr) (ident c : Nat) : Buf :=
  [69, 0, 0, 40, byteHi ident, byteLo ident, 64, 0, 64, 6, byteHi c, byteLo c,
   src_ip.a, src_ip.b, src_ip.c, src_ip.d, dest_ip.a, dest_ip.b, dest_ip.c, dest_ip.d]

/-- The finished TCP header of a SYN probe as an explicit byte list:
ports, sequence and acknowledgement numbers, data offset 5 with exactly
the SYN flag (`0x50 0x02`), window 1024 (`0x04 0x00`), checksum `c`,
urgent pointer 0. -/
def tcpHeaderBytes (src_port dest_port seq ack c : Nat) : Buf :=
  [byteHi src_port, byteLo src_port, byteHi dest_port, byteLo dest_port,
   seq / 16777216 % 256, seq / 65536 % 256, byteHi seq, byteLo seq,
   ack / 16777216 % 256, ack / 65536 % 256, byteHi ack, byteLo ack,
   80, 2, 4, 0, byteHi c, byteLo c, 0, 0]

/-- Independent recomputation of the Internet one's-complement checksum
over a finished buffer, checksum field included: the claim's verification
condition is that this yields zero. -/
def recomputeChecksum (data : Buf) : Nat := finalizeChecksum ((wordsOf data).sum)

/-- Independent recomputation of the TCP checksum over the IPv4
pseudo-header (source, destination, protocol, segment length) and the
finished segment, checksum field included: validation succeeds when this
yields zero. -/
def recomputeTcpChecksum (seg : Buf) (src_ip dest_ip : Ipv4Addr) : Nat :=
  finalizeChecksum (ipv4WordSum src_ip + ipv4WordSum dest_ip +
    IpNextHeaderProtocols.Tcp + seg.length + (wordsOf seg).sum)

/-- The byte positions of `build_syn_packet`'s output that do not depend
on the random draws: everything except the IPv4 identification (4, 5), the
IPv4 checksum (10, 11), the TCP sequence (24..27) and acknowledgement
(28..31) numbers, and the TCP checksum (36, 37). -/
def nonRandomByteIndices : List Nat :=
  [0, 1, 2, 3, 6, 7, 8, 9, 12, 13, 14, 15, 16, 17, 18, 19,
   20, 21, 22, 23, 32, 33, 34, 35, 38, 39]

theorem foldCarryAux_congr : ∀ (f1 f2 s : Nat), s ≤ f1 → s ≤ f2 →
    foldCarryAux f1 s = foldCarryAux f2 s := by
  intro f1
  induction f1 with
  | zero =>
    intro f2 s h1 h2
    have hs : s = 0 := Nat.le_zero.mp h1
    subst hs
    cases f2 <;> simp [foldCarryAux]
  | succ f ih =>
    intro f2 s h1 h2
    by_cases hs : s < 65536
    · cases f2 with
      | zero =>
        have h0 : s = 0 := Nat.le_zero.mp h2
        subst h0
        simp [foldCarryAux]
      | succ g => simp [foldCarryAux, hs]
    · cases f2 with
      | zero => omega
      | succ g =>
        simp only [foldCarryAux, if_neg hs]
        have hlt : s / 65536 + s % 65536 < s := by omega
        exact ih g (s / 65536 + s % 65536) (by omega) (by omega)

theorem foldCarry_eq (s : Nat) :
    foldCarry s = if s < 65536 then s else foldCarry (s / 65536 + s % 65536) := by
  unfold foldCarry
  by_cases hs : s < 65536
  · rw [if_pos hs]
    cases s with
    | zero => rfl
    | succ n => simp [foldCarryAux, hs]
  · rw [if_neg hs]
    obtain ⟨n, rfl⟩ : ∃ n, s = n + 1 := ⟨s - 1, by omega⟩
    simp only [foldCarryAux, if_neg hs]
    exact foldCarryAux_congr n _ _ (by omega) (by omega)

theorem foldCarry_lt (s : Nat) : foldCarry s < 65536 := by
  induction s using Nat.strong_induction_on with
  | _ s ih =>
    rw [foldCarry_eq]
    split
    · next h => exact h
    · next h => exact ih _ (by omega)

theorem foldCarry_le (s : Nat) : foldCarry s ≤ s := by
  induction s using Nat.strong_induction_on with
  | _ s ih =>
    rw [foldCarry_eq]
    split
    · exact Nat.le_refl s
    · next h =>
      have := ih (s / 65536 + s % 65536) (by omega)
      omega

theorem foldCarry_mod (s : Nat) : foldCarry s % 65535 = s % 65535 := by
  induction s using Nat.strong_induction_on with
  | _ s ih =>
    rw [foldCarry_eq]
    split
    · rfl
    · next h =>
      have := ih (s / 65536 + s % 65536) (by omega)
      omega

theorem foldCarry_eq_65535 (s : Nat) (h0 : 0 < s) (hm : s % 65535 = 0) :
    foldCarry s = 65535 := by
  induction s using Nat.strong_induction_on with
  | _ s ih =>
    rw [foldCarry_eq]
    split
    · next h => omega
    · next h => exact ih (s / 65536 + s % 65536) (by omega) (by omega) (by omega)

theorem finalize_roundtrip (s : Nat) : finalizeChecksum (s + finalizeChecksum s) = 0 := by
  unfold finalizeChecksum
  have hlt := foldCarry_lt s
  have hle := foldCarry_le s
  have hmod := foldCarry_mod s
  by_cases hF : foldCarry s = 65535
  · rw [hF]
    simp only [Nat.sub_self, Nat.add_zero]
    omega
  · have h1 : foldCarry (s + (65535 - foldCarry s)) = 65535 := by
      apply foldCarry_eq_65535 <;> omega
    omega

theorem wordsOf_length : ∀ l : Buf, (wordsOf l).length = (l.length + 1) / 2
  | [] => by simp [wordsOf]
  | [_] => by simp [wordsOf]
  | b1 :: b2 :: rest => by
    simp only [wordsOf, List.length_cons, wordsOf_length rest]
    omega

theorem sum_set_add : ∀ (l : List Nat) (k c : Nat), k < l.length →
    (l.set k c).sum = (l.set k 0).sum + c
  | [], k, c => by intro h; simp at h
  | x :: t, 0, c => by
    intro _
    simp only [List.set, List.sum_cons]
    omega
  | x :: t, k + 1, c => by
    intro h
    have ht : k < t.length := by simpa using h
    simp only [List.set, List.sum_cons, sum_set_add t k c ht]
    omega

theorem wordsOf_set_pair : ∀ (k : Nat) (l : Buf) (a b : Nat), 2 * k + 1 < l.length →
    wordsOf ((l.set (2 * k) a).set (2 * k + 1) b) = (wordsOf l).set k (a * 256 + b)
  | 0, [], a, b => by intro h; simp at h
  | 0, [x], a, b => by intro h; simp at h
  | 0, x :: y :: t, a, b => by
    intro _
    simp [List.set, wordsOf]
  | k + 1, [], a, b => by intro h; simp at h
  | k + 1, [x], a, b => by intro h; simp at h
  | k + 1, x :: y :: t, a, b => by
    intro h
    have ht : 2 * k + 1 < t.length := by
      simp only [List.length_cons] at h
      omega
    have e1 : 2 * (k + 1) = 2 * k + 1 + 1 := by omega
    rw [e1]
    simp only [List.set, wordsOf, wordsOf_set_pair k t a b ht]

theorem checksum_verify (P : Nat) (h : Buf) (k c : Nat) (hk : 2 * k + 1 < h.length)
    (hc : c = finalizeChecksum (P + sumBeWords h k)) :
    finalizeChecksum (P + (wordsOf (set16 h (2 * k) c)).sum) = 0 := by
  have hc65 : c ≤ 65535 := by
    rw [hc]
    unfold finalizeChecksum
    omega
  have hw : wordsOf (set16 h (2 * k) c) = (wordsOf h).set k (byteHi c * 256 + byteLo c) := by
    unfold set16 setByte
    exact wordsOf_set_pair k h (byteHi c) (byteLo c) hk
  have hcb : byteHi c * 256 + byteLo c = c := by
    unfold byteHi byteLo
    omega
  rw [hw, hcb]
  have hk2 : k < (wordsOf h).length := by
    rw [wordsOf_length]
    omega
  rw [sum_set_add _ _ _ hk2]
  have he : P + (((wordsOf h).set k 0).sum + c) = (P + sumBeWords h k) + c := by
    unfold sumBeWords
    omega
  rw [he, hc]
  exact finalize_roundtrip _

theorem checksum_verify0 (h : Buf) (k c : Nat) (hk : 2 * k + 1 < h.length)
    (hc : c = finalizeChecksum (sumBeWords h k)) :
    finalizeChecksum ((wordsOf (set16 h (2 * k) c)).sum) = 0 := by
  have h0 := checksum_verify 0 h k c hk (by rw [Nat.zero_add]; exact hc)
  rwa [Nat.zero_add] at h0

theorem build_ipv4_pre_eq (s d : Ipv4Addr) (ident : Nat) :
    Tcp.build_ipv4_header_pre s d ident (List.replicate 40 0) =
      ipv4HeaderBytes s d ident 0 ++ List.replicate 20 0 := by
  simp [Tcp.build_ipv4_header_pre, MutableIpv4Packet.set_version,
    MutableIpv4Packet.set_header_length, MutableIpv4Packet.set_source,
    MutableIpv4Packet.set_destination, MutableIpv4Packet.set_total_length,
    MutableIpv4Packet.set_identification, MutableIpv4Packet.set_flags,
    MutableIpv4Packet.set_ttl, MutableIpv4Packet.set_next_level_protocol,
    setByte, getByte, set16, byteHi, byteLo, IPV4_HEADER_SIZE, TCP_HEADER_SIZE,
    TCP_DATA_SIZE, TTL, Ipv4Flags.DontFragment, IpNextHeaderProtocols.Tcp,
    List.replicate_succ, List.replicate_zero, ipv4HeaderBytes]

theorem build_ipv4_eq (s d : Ipv4Addr) (ident : Nat) :
    Tcp.build_ipv4_header s d ident (List.replicate 40 0) =
      ipv4HeaderBytes s d ident
        (ipv4.checksum (Tcp.build_ipv4_header_pre s d ident (List.replicate 40 0))) ++
      List.replicate 20 0 := by
  simp only [Tcp.build_ipv4_header]
  generalize ipv4.checksum (Tcp.build_ipv4_header_pre s d ident (List.replicate 40 0)) = c
  rw [build_ipv4_pre_eq]
  simp [MutableIpv4Packet.set_checksum, set16, setByte, ipv4HeaderBytes]

theorem build_ipv4_take20 (s d : Ipv4Addr) (ident : Nat) :
    (Tcp.build_ipv4_header s d ident (List.replicate 40 0)).take 20 =
      ipv4HeaderBytes s d ident
        (ipv4.checksum (Tcp.build_ipv4_header_pre s d ident (List.replicate 40 0))) := by
  rw [build_ipv4_eq]
  simp [ipv4HeaderBytes]

theorem build_ipv4_drop20 (s d : Ipv4Addr) (ident : Nat) :
    (Tcp.build_ipv4_header s d ident (List.replicate 40 0)).drop 20 =
      List.replicate 20 0 := by
  rw [build_ipv4_eq]
  simp [ipv4HeaderBytes]

theorem build_tcp_pre_eq (sp dp sq ak : Nat) :
    Tcp.build_tcp_header_pre sp dp sq ak (List.replicate 20 0) =
      tcpHeaderBytes sp dp sq ak 0 := by
  simp [Tcp.build_tcp_header_pre, MutableTcpPacket.set_source,
    MutableTcpPacket.set_destination, MutableTcpPacket.set_sequence,
    MutableTcpPacket.set_acknowledgement, MutableTcpPacket.set_reserved,
    MutableTcpPacket.set_flags, MutableTcpPacket.set_urgent_ptr,
    MutableTcpPacket.set_window, MutableTcpPacket.set_data_offset,
    setByte, getByte, set16, set32, byteHi, byteLo, TcpFlags.SYN,
    List.replicate_succ, List.replicate_zero, tcpHeaderBytes]

theorem build_tcp_eq (sp dp sq ak : Nat) (s d : Ipv4Addr) :
    Tcp.build_tcp_header sp dp sq ak s d (List.replicate 20 0) =
      tcpHeaderBytes sp dp sq ak
        (tcp.ipv4_checksum (Tcp.build_tcp_header_pre sp dp sq ak (List.replicate 20 0)) s d) := by
  simp only [Tcp.build_tcp_header]
  generalize tcp.ipv4_checksum (Tcp.build_tcp_header_pre sp dp sq ak (List.replicate 20 0)) s d = c
  rw [build_tcp_pre_eq]
  simp [MutableTcpPacket.set_checksum, set16, setByte, tcpHeaderBytes]

theorem build_syn_packet_eq (s : Ipv4Addr) (sp : Nat) (d : Ipv4Addr) (dp ident sq ak : Nat) :
    Tcp.build_syn_packet s sp d dp ident sq ak =
      ipv4HeaderBytes s d ident
        (ipv4.checksum (Tcp.build_ipv4_header_pre s d ident (List.replicate 40 0))) ++
      tcpHeaderBytes sp dp sq ak
        (tcp.ipv4_checksum (Tcp.build_tcp_header_pre sp dp sq ak (List.replicate 20 0)) s d) := by
  simp only [Tcp.build_syn_packet, IPV4_HEADER_SIZE, TCP_HEADER_SIZE, TCP_DATA_SIZE,
    Nat.add_zero, Nat.reduceAdd]
  rw [build_ipv4_take20, build_ipv4_drop20, build_tcp_eq]

theorem build_ipv4_length (s d : Ipv4Addr) (ident : Nat) (buf : Buf) :
    (Tcp.build_ipv4_header s d ident buf).length = buf.length := by
  simp [Tcp.build_ipv4_header, Tcp.build_ipv4_header_pre,
    MutableIpv4Packet.set_version, MutableIpv4Packet.set_header_length,
    MutableIpv4Packet.set_source, MutableIpv4Packet.set_destination,
    MutableIpv4Packet.set_total_length, MutableIpv4Packet.set_identification,
    MutableIpv4Packet.set_flags, MutableIpv4Packet.set_ttl,
    MutableIpv4Packet.set_next_level_protocol, MutableIpv4Packet.set_checksum,
    setByte, set16]

theorem ipv4HeaderBytes_set16 (s d : Ipv4Addr) (ident c : Nat) :
    set16 (ipv4HeaderBytes s d ident 0) (2 * 5) c = ipv4HeaderBytes s d ident c := by
  simp [set16, setByte, ipv4HeaderBytes, byteHi, byteLo]

theorem tcpHeaderBytes_set16 (sp dp sq ak c : Nat) :
    set16 (tcpHeaderBytes sp dp sq ak 0) (2 * 8) c = tcpHeaderBytes sp dp sq ak c := by
  simp [set16, setByte, tcpHeaderBytes, byteHi, byteLo]

theorem ipv4_checksum_pre_eq (s d : Ipv4Addr) (ident : Nat) :
    ipv4.checksum (Tcp.build_ipv4_header_pre s d ident (List.replicate 40 0)) =
      finalizeChecksum (sumBeWords (ipv4HeaderBytes s d ident 0) 5) := by
  rw [build_ipv4_pre_eq]
  simp [ipv4.checksum, Ipv4Packet.get_header_length, getByte, ipv4HeaderBytes]

theorem tcp_checksum_pre_eq (sp dp sq ak : Nat) (s d : Ipv4Addr) :
    tcp.ipv4_checksum (Tcp.build_tcp_header_pre sp dp sq ak (List.replicate 20 0)) s d =
      finalizeChecksum (ipv4WordSum s + ipv4WordSum d + 6 + 20 +
        sumBeWords (tcpHeaderBytes sp dp sq ak 0) 8) := by
  rw [build_tcp_pre_eq]
  simp [tcp.ipv4_checksum, IpNextHeaderProtocols.Tcp, tcpHeaderBytes]

theorem build_take20_eq (s : Ipv4Addr) (sp : Nat) (d : Ipv4Addr) (dp ident sq ak : Nat) :
    (Tcp.build_syn_packet s sp d dp ident sq ak).take 20 =
      ipv4HeaderBytes s d ident
        (ipv4.checksum (Tcp.build_ipv4_header_pre s d ident (List.replicate 40 0))) := by
  rw [build_syn_packet_eq]
  simp [ipv4HeaderBytes]

theorem build_drop20_eq (s : Ipv4Addr) (sp : Nat) (d : Ipv4Addr) (dp ident sq ak : Nat) :
    (Tcp.build_syn_packet s sp d dp ident sq ak).drop 20 =
      tcpHeaderBytes sp dp sq ak
        (tcp.ipv4_checksum (Tcp.build_tcp_header_pre sp dp sq ak (List.replicate 20 0)) s d) := by
  rw [build_syn_packet_eq]
  simp [ipv4HeaderBytes]

/-- C5: for every local/peer address and port pair and every draw of the
random fields, the IPv4 header checksum stored by `build_syn_packet` is
correct: the Internet one's-complement checksum recomputed over the 20
finished header bytes, checksum field included, is zero. -/
theorem c5_ipv4_checksum_recomputes_to_zero (s : Ipv4Addr) (sp : Nat) (d : Ipv4Addr)
    (dp ident sq ak : Nat) :
    recomputeChecksum ((Tcp.build_syn_packet s sp d dp ident sq ak).take 20) = 0 := by
  rw [recomputeChecksum, build_take20_eq, ipv4_checksum_pre_eq, ← ipv4HeaderBytes_set16]
  exact checksum_verify0 _ 5 _ (by simp [ipv4HeaderBytes]) rfl

/-- C3: for every local/peer address and port pair and every draw of the
random fields, the buffer built by `build_syn_packet` decodes as an IPv4
header with version 4, header length 5 (no options), source address equal
to `src_ip`, destination address equal to `dest_ip`, total length 40 (the
header+payload size), the don't-fragment flag set, TTL equal to the fixed
constant, and next-protocol number equal to TCP. -/
theorem c3_ipv4_header_fields (s : Ipv4Addr) (sp : Nat) (d : Ipv4Addr)
    (dp ident sq ak : Nat) :
    Ipv4Packet.new (Tcp.build_syn_packet s sp d dp ident sq ak) =
        some (Tcp.build_syn_packet s sp d dp ident sq ak) ∧
    Ipv4Packet.get_version (Tcp.build_syn_packet s sp d dp ident sq ak) = 4 ∧
    Ipv4Packet.get_header_length (Tcp.build_syn_packet s sp d dp ident sq ak) = 5 ∧
    Ipv4Packet.get_source (Tcp.build_syn_packet s sp d dp ident sq ak) = s ∧
    Ipv4Packet.get_destination (Tcp.build_syn_packet s sp d dp ident sq ak) = d ∧
    Ipv4Packet.get_total_length (Tcp.build_syn_packet s sp d dp ident sq ak) =
      IPV4_HEADER_SIZE + TCP_HEADER_SIZE + TCP_DATA_SIZE ∧
    Ipv4Packet.get_flags (Tcp.build_syn_packet s sp d dp ident sq ak) =
      Ipv4Flags.DontFragment ∧
    Ipv4Packet.get_ttl (Tcp.build_syn_packet s sp d dp ident sq ak) = TTL ∧
    Ipv4Packet.get_next_level_protocol (Tcp.build_syn_packet s sp d dp ident sq ak) =
      IpNextHeaderProtocols.Tcp := by
  rw [build_syn_packet_eq]
  refine ⟨?_, ?_, ?_, ?_, ?_, ?_, ?_, ?_, ?_⟩ <;>
    simp [Ipv4Packet.new, Ipv4Packet.minimum_packet_size, Ipv4Packet.get_version,
      Ipv4Packet.get_header_length, Ipv4Packet.get_source, Ipv4Packet.get_destination,
      Ipv4Packet.get_total_length, Ipv4Packet.get_flags, Ipv4Packet.get_ttl,
      Ipv4Packet.get_next_level_protocol, getByte, ipv4HeaderBytes, tcpHeaderBytes,
      IPV4_HEADER_SIZE, TCP_HEADER_SIZE, TCP_DATA_SIZE, TTL, Ipv4Flags.DontFragment,
      IpNextHeaderProtocols.Tcp]

/-- C4: for every local/peer address and port pair (ports in `u16` range)
and every draw of the random fields, the TCP header at offset 20 of the
buffer built by `build_syn_packet` decodes with source port `src_port`,
destination port `dest_port`, exactly the SYN flag set, data offset 5 (no
options), the fixed window 1024, and a checksum that validates against the
IPv4 pseudo-header built from `src_ip` and `dest_ip` (the recomputation
over pseudo-header plus segment yields zero). -/
theorem c4_tcp_header_fields (s : Ipv4Addr) (sp : Nat) (d : Ipv4Addr)
    (dp ident sq ak : Nat) (hsp : sp < 65536) (hdp : dp < 65536) :
    TcpPacket.get_source ((Tcp.build_syn_packet s sp d dp ident sq ak).drop 20) = sp ∧
    TcpPacket.get_destination ((Tcp.build_syn_packet s sp d dp ident sq ak).drop 20) = dp ∧
    TcpPacket.get_flags ((Tcp.build_syn_packet s sp d dp ident sq ak).drop 20) =
      TcpFlags.SYN ∧
    TcpPacket.get_data_offset ((Tcp.build_syn_packet s sp d dp ident sq ak).drop 20) = 5 ∧
    TcpPacket.get_window ((Tcp.build_syn_packet s sp d dp ident sq ak).drop 20) = 1024 ∧
    recomputeTcpChecksum ((Tcp.build_syn_packet s sp d dp ident sq ak).drop 20) s d = 0 := by
  rw [build_drop20_eq]
  refine ⟨?_, ?_, ?_, ?_, ?_, ?_⟩
  · simp [TcpPacket.get_source, getByte, tcpHeaderBytes, byteHi, byteLo]
    omega
  · simp [TcpPacket.get_destination, getByte, tcpHeaderBytes, byteHi, byteLo]
    omega
  · simp [TcpPacket.get_flags, getByte, tcpHeaderBytes, TcpFlags.SYN]
  · simp [TcpPacket.get_data_offset, getByte, tcpHeaderBytes]
  · simp [TcpPacket.get_window, getByte, tcpHeaderBytes]
  · have hlen : (tcpHeaderBytes sp dp sq ak
        (tcp.ipv4_checksum (Tcp.build_tcp_header_pre sp dp sq ak (List.replicate 20 0)) s d)).length
          = 20 := by
      simp [tcpHeaderBytes]
    rw [recomputeTcpChecksum, hlen, IpNextHeaderProtocols.Tcp,
      tcp_checksum_pre_eq, ← tcpHeaderBytes_set16]
    exact checksum_verify _ _ 8 _ (by simp [tcpHeaderBytes]) rfl

/-- C6: for the specific inputs src 192.168.1.1:12345 and dest
192.168.1.2:80 (and any draw of the random fields), `build_syn_packet`
returns a buffer of exactly 40 bytes which byte-parses to IP version 4,
next protocol TCP, and TCP flags equal to SYN only. -/
theorem c6_scenario_concrete (ident sq ak : Nat) :
    (Tcp.build_syn_packet ⟨192, 168, 1, 1⟩ 12345 ⟨192, 168, 1, 2⟩ 80 ident sq ak).length
        = 40 ∧
    Ipv4Packet.get_version
      (Tcp.build_syn_packet ⟨192, 168, 1, 1⟩ 12345 ⟨192, 168, 1, 2⟩ 80 ident sq ak) = 4 ∧
    Ipv4Packet.get_next_level_protocol
      (Tcp.build_syn_packet ⟨192, 168, 1, 1⟩ 12345 ⟨192, 168, 1, 2⟩ 80 ident sq ak) =
        IpNextHeaderProtocols.Tcp ∧
    TcpPacket.get_flags
      ((Tcp.build_syn_packet ⟨192, 168, 1, 1⟩ 12345 ⟨192, 168, 1, 2⟩ 80 ident sq ak).drop 20) =
        TcpFlags.SYN := by
  refine ⟨?_, ?_, ?_, ?_⟩
  · rw [build_syn_packet_eq]
    simp [ipv4HeaderBytes, tcpHeaderBytes]
  · rw [build_syn_packet_eq]
    simp [Ipv4Packet.get_version, getByte, ipv4HeaderBytes]
  · rw [build_syn_packet_eq]
    simp [Ipv4Packet.get_next_level_protocol, getByte, ipv4HeaderBytes,
      IpNextHeaderProtocols.Tcp]
  · rw [build_drop20_eq]
    simp [TcpPacket.get_flags, getByte, tcpHeaderBytes, TcpFlags.SYN]

/-- C4 witness: the TCP-header theorem instantiated at
192.168.1.1:12345 → 192.168.1.2:80 with random draws 7, 8, 9. -/
theorem c4_witness :
    TcpPacket.get_source
        ((Tcp.build_syn_packet ⟨192, 168, 1, 1⟩ 12345 ⟨192, 168, 1, 2⟩ 80 7 8 9).drop 20)
        = 12345 ∧
    TcpPacket.get_destination
        ((Tcp.build_syn_packet ⟨192, 168, 1, 1⟩ 12345 ⟨192, 168, 1, 2⟩ 80 7 8 9).drop 20)
        = 80 ∧
    TcpPacket.get_flags
        ((Tcp.build_syn_packet ⟨192, 168, 1, 1⟩ 12345 ⟨192, 168, 1, 2⟩ 80 7 8 9).drop 20)
        = TcpFlags.SYN ∧
    TcpPacket.get_data_offset
        ((Tcp.build_syn_packet ⟨192, 168, 1, 1⟩ 12345 ⟨192, 168, 1, 2⟩ 80 7 8 9).drop 20)
        = 5 ∧
    TcpPacket.get_window
        ((Tcp.build_syn_packet ⟨192, 168, 1, 1⟩ 12345 ⟨192, 168, 1, 2⟩ 80 7 8 9).drop 20)
        = 1024 ∧
    recomputeTcpChecksum
        ((Tcp.build_syn_packet ⟨192, 168, 1, 1⟩ 12345 ⟨192, 168, 1, 2⟩ 80 7 8 9).drop 20)
        ⟨192, 168, 1, 1⟩ ⟨192, 168, 1, 2⟩ = 0 :=
  c4_tcp_header_fields ⟨192, 168, 1, 1⟩ 12345 ⟨192, 168, 1, 2⟩ 80 7 8 9
    (by decide) (by decide)

/-- C7: for every input and every draw of the random fields, the two
header-construction steps of `build_syn_packet` succeed: the 40-byte
buffer passes both pnet constructor checks, so the checked variant never
signals `CantCreateIpv4Packet` or `CantCreateTcpPacket` and returns
exactly the built packet. -/
theorem c7_build_never_fails (s : Ipv4Addr) (sp : Nat) (d : Ipv4Addr)
    (dp ident sq ak : Nat) :
    Tcp.build_syn_packet_checked s sp d dp ident sq ak =
      Except.ok (Tcp.build_syn_packet s sp d dp ident sq ak) := by
  unfold Tcp.build_syn_packet_checked Tcp.build_syn_packet
  simp [MutableIpv4Packet.new, MutableTcpPacket.new,
    MutableIpv4Packet.minimum_packet_size, MutableTcpPacket.minimum_packet_size,
    IPV4_HEADER_SIZE, TCP_HEADER_SIZE, TCP_DATA_SIZE, build_ipv4_length]

/-- C1: the Match Specification built by `send_syn_packet` is exactly the
reverse of the outbound packet's addressing: its transport layer expects
source port equal to the packet's destination port and destination port
equal to the packet's source port, and its nested network layer expects
source address equal to the packet's destination address and destination
address equal to the packet's source address, with no datalink context. -/
theorem c1_match_spec_is_reverse_of_packet (s : Ipv4Addr) (sp : Nat) (d : Ipv4Addr)
    (dp ident sq ak : Nat) (hsp : sp < 65536) (hdp : dp < 65536) :
    Tcp.syn_match_spec s sp d dp = Layer.Four
      { network_layer := some
          { datalink_layer := none
            src_addr := some (IpAddr.V4
              (Ipv4Packet.get_destination (Tcp.build_syn_packet s sp d dp ident sq ak)))
            dest_addr := some (IpAddr.V4
              (Ipv4Packet.get_source (Tcp.build_syn_packet s sp d dp ident sq ak))) }
        src_port := some
          (TcpPacket.get_destination ((Tcp.build_syn_packet s sp d dp ident sq ak).drop 20))
        dest_port := some
          (TcpPacket.get_source ((Tcp.build_syn_packet s sp d dp ident sq ak).drop 20)) } := by
  have h1 : Ipv4Packet.get_destination (Tcp.build_syn_packet s sp d dp ident sq ak) = d := by
    rw [build_syn_packet_eq]
    simp [Ipv4Packet.get_destination, getByte, ipv4HeaderBytes]
  have h2 : Ipv4Packet.get_source (Tcp.build_syn_packet s sp d dp ident sq ak) = s := by
    rw [build_syn_packet_eq]
    simp [Ipv4Packet.get_source, getByte, ipv4HeaderBytes]
  have h3 : TcpPacket.get_destination ((Tcp.build_syn_packet s sp d dp ident sq ak).drop 20)
      = dp := by
    rw [build_drop20_eq]
    simp [TcpPacket.get_destination, getByte, tcpHeaderBytes, byteHi, byteLo]
    omega
  have h4 : TcpPacket.get_source ((Tcp.build_syn_packet s sp d dp ident sq ak).drop 20)
      = sp := by
    rw [build_drop20_eq]
    simp [TcpPacket.get_source, getByte, tcpHeaderBytes, byteHi, byteLo]
    omega
  rw [h1, h2, h3, h4]
  rfl

/-- C1 witness: the reversal theorem instantiated at
192.168.1.1:12345 → 192.168.1.2:80 with random draws 7, 8, 9. -/
theorem c1_witness :
    Tcp.syn_match_spec ⟨192, 168, 1, 1⟩ 12345 ⟨192, 168, 1, 2⟩ 80 = Layer.Four
      { network_layer := some
          { datalink_layer := none
            src_addr := some (IpAddr.V4 (Ipv4Packet.get_destination
              (Tcp.build_syn_packet ⟨192, 168, 1, 1⟩ 12345 ⟨192, 168, 1, 2⟩ 80 7 8 9)))
            dest_addr := some (IpAddr.V4 (Ipv4Packet.get_source
              (Tcp.build_syn_packet ⟨192, 168, 1, 1⟩ 12345 ⟨192, 168, 1, 2⟩ 80 7 8 9))) }
        src_port := some (TcpPacket.get_destination
          ((Tcp.build_syn_packet ⟨192, 168, 1, 1⟩ 12345 ⟨192, 168, 1, 2⟩ 80 7 8 9).drop 20))
        dest_port := some (TcpPacket.get_source
          ((Tcp.build_syn_packet ⟨192, 168, 1, 1⟩ 12345 ⟨192, 168, 1, 2⟩ 80 7 8 9).drop 20)) } :=
  c1_match_spec_is_reverse_of_packet ⟨192, 168, 1, 1⟩ 12345 ⟨192, 168, 1, 2⟩ 80 7 8 9
    (by decide) (by decide)

/-- C2: for every input, if the transport engine satisfies the spec's
Probe Outcome invariant (its `Ok` results are either both `Some` or both
`None`), then every `Ok` result of `send_syn_packet` is a pair whose two
options are either both `Some` or both `None`: it never returns a duration
without a payload or a payload without a duration. -/
theorem c2_outcome_both_or_neither {ε : Type}
    (engine : Ipv4Addr → Ipv4Addr → Buf → Layer → Nat → Except ε (Option Buf × Option Nat))
    (value : Nat) (s : Ipv4Addr) (sp : Nat) (d : Ipv4Addr) (dp ident sq ak : Nat)
    (hengine : ∀ src dst pkt layer v r, engine src dst pkt layer v = Except.ok r →
      (r.1.isSome ∧ r.2.isSome) ∨ (r.1 = none ∧ r.2 = none))
    (res : Option Buf × Option Nat)
    (hres : Tcp.send_syn_packet engine value s sp d dp ident sq ak = Except.ok res) :
    (res.1.isSome ∧ res.2.isSome) ∨ (res.1 = none ∧ res.2 = none) := by
  simp only [Tcp.send_syn_packet] at hres
  cases hE : engine s d (Tcp.build_syn_packet s sp d dp ident sq ak)
      (Tcp.syn_match_spec s sp d dp) value with
  | error e =>
    rw [hE] at hres
    exact absurd hres (by simp)
  | ok pr =>
    rw [hE] at hres
    obtain ⟨response, rtt⟩ := pr
    have hinv := hengine _ _ _ _ _ _ hE
    cases response with
    | none =>
      simp only [Except.ok.injEq] at hres
      subst hres
      exact Or.inr ⟨rfl, rfl⟩
    | some p =>
      dsimp only at hres
      cases hN : Ipv4Packet.new p with
      | none =>
        rw [hN] at hres
        dsimp only at hres
        simp only [Except.ok.injEq] at hres
        subst hres
        rcases hinv with ⟨_, h2⟩ | ⟨h1, _⟩
        · exact Or.inl ⟨rfl, h2⟩
        · exact absurd h1 (by simp)
      | some q =>
        rw [hN] at hres
        dsimp only at hres
        simp only [Except.ok.injEq] at hres
        subst hres
        rcases hinv with ⟨_, h2⟩ | ⟨h1, _⟩
        · exact Or.inl ⟨rfl, h2⟩
        · exact absurd h1 (by simp)

/-- C2 witness: the invariant theorem applied to a concrete engine that
reports no match, at 192.168.1.1:12345 → 192.168.1.2:80. -/
theorem c2_witness :
    ((none : Option Buf).isSome ∧ (none : Option Nat).isSome) ∨
      ((none : Option Buf) = none ∧ (none : Option Nat) = none) :=
  c2_outcome_both_or_neither
    (fun _ _ _ _ _ => (Except.ok (none, none) : Except Unit (Option Buf × Option Nat)))
    1 ⟨192, 168, 1, 1⟩ 12345 ⟨192, 168, 1, 2⟩ 80 7 8 9
    (fun _ _ _ _ _ r h => by
      cases h
      exact Or.inr ⟨rfl, rfl⟩)
    (none, none) rfl

/-- C8: whenever the engine hands `send_syn_packet` a matched payload, a
failure to decode that payload as an IPv4 packet is non-fatal:
`send_syn_packet` still returns `Ok` with the payload and the engine's
duration; the decode failure is only logged, never propagated. -/
theorem c8_decode_failure_nonfatal {ε : Type}
    (engine : Ipv4Addr → Ipv4Addr → Buf → Layer → Nat → Except ε (Option Buf × Option Nat))
    (value : Nat) (s : Ipv4Addr) (sp : Nat) (d : Ipv4Addr) (dp ident sq ak : Nat)
    (payload : Buf) (rtt : Option Nat)
    (hE : engine s d (Tcp.build_syn_packet s sp d dp ident sq ak)
      (Tcp.syn_match_spec s sp d dp) value = Except.ok (some payload, rtt))
    (hdecode : Ipv4Packet.new payload = none) :
    Tcp.send_syn_packet engine value s sp d dp ident sq ak =
      Except.ok (some payload, rtt) := by
  simp only [Tcp.send_syn_packet]
  rw [hE]
  dsimp only
  rw [hdecode]

/-- C8 witness: a concrete engine returning a three-byte matched payload,
which is too short to decode as IPv4, still yields that payload and the
engine's duration. -/
theorem c8_witness :
    Tcp.send_syn_packet
      (fun _ _ _ _ _ =>
        (Except.ok (some [1, 2, 3], some 5) : Except Unit (Option Buf × Option Nat))) 1
      ⟨192, 168, 1, 1⟩ 12345 ⟨192, 168, 1, 2⟩ 80 7 8 9 =
      Except.ok (some [1, 2, 3], some 5) :=
  c8_decode_failure_nonfatal
    (fun _ _ _ _ _ =>
      (Except.ok (some [1, 2, 3], some 5) : Except Unit (Option Buf × Option Nat))) 1
    ⟨192, 168, 1, 1⟩ 12345 ⟨192, 168, 1, 2⟩ 80 7 8 9 [1, 2, 3] (some 5) rfl (by decide)

/-- C9: `build_syn_packet` is deterministic except in its designated
random fields: two runs with the same addresses and ports but different
random draws agree on every byte outside the IPv4 identification, the TCP
sequence and acknowledgement numbers, and the two checksums; and the
identification, sequence and acknowledgement fields hold exactly the
values drawn for that call. -/
theorem c9_deterministic_except_random_fields (s : Ipv4Addr) (sp : Nat) (d : Ipv4Addr)
    (dp id1 sq1 ak1 id2 sq2 ak2 : Nat)
    (hid : id1 < 65536) (hsq : sq1 < 4294967296) (hak : ak1 < 4294967296) :
    (∀ i ∈ nonRandomByteIndices,
      getByte (Tcp.build_syn_packet s sp d dp id1 sq1 ak1) i =
        getByte (Tcp.build_syn_packet s sp d dp id2 sq2 ak2) i) ∧
    Ipv4Packet.get_identification (Tcp.build_syn_packet s sp d dp id1 sq1 ak1) = id1 ∧
    TcpPacket.get_sequence ((Tcp.build_syn_packet s sp d dp id1 sq1 ak1).drop 20) = sq1 ∧
    TcpPacket.get_acknowledgement ((Tcp.build_syn_packet s sp d dp id1 sq1 ak1).drop 20)
      = ak1 := by
  refine ⟨?_, ?_, ?_, ?_⟩
  · intro i hi
    rw [build_syn_packet_eq, build_syn_packet_eq]
    fin_cases hi <;>
      simp [getByte, ipv4HeaderBytes, tcpHeaderBytes, nonRandomByteIndices]
  · rw [build_syn_packet_eq]
    simp [Ipv4Packet.get_identification, getByte, ipv4HeaderBytes, byteHi, byteLo]
    omega
  · rw [build_drop20_eq]
    simp [TcpPacket.get_sequence, getByte, tcpHeaderBytes, byteHi, byteLo]
    omega
  · rw [build_drop20_eq]
    simp [TcpPacket.get_acknowledgement, getByte, tcpHeaderBytes, byteHi, byteLo]
    omega

/-- C9 witness: two builds with draws (7, 8, 9) and (1000, 2000, 3000)
agree at byte 0, and the first build's identification field is 7. -/
theorem c9_witness :
    getByte (Tcp.build_syn_packet ⟨192, 168, 1, 1⟩ 12345 ⟨192, 168, 1, 2⟩ 80 7 8 9) 0 =
      getByte (Tcp.build_syn_packet ⟨192, 168, 1, 1⟩ 12345 ⟨192, 168, 1, 2⟩ 80
        1000 2000 3000) 0 ∧
    Ipv4Packet.get_identification
      (Tcp.build_syn_packet ⟨192, 168, 1, 1⟩ 12345 ⟨192, 168, 1, 2⟩ 80 7 8 9) = 7 :=
  ⟨(c9_deterministic_except_random_fields ⟨192, 168, 1, 1⟩ 12345 ⟨192, 168, 1, 2⟩ 80
      7 8 9 1000 2000 3000 (by decide) (by decide) (by decide)).1 0 (by decide),
   (c9_deterministic_except_random_fields ⟨192, 168, 1, 1⟩ 12345 ⟨192, 168, 1, 2⟩ 80
      7 8 9 1000 2000 3000 (by decide) (by decide) (by decide)).2.1⟩

/-- C10: the Match Specification built by `send_syn_packet` sets the
nested link-layer context to `None`, so (in the spec's evaluator) any
frame whose IPv4 addresses and TCP ports are the reversal of the probe's
is accepted regardless of its Ethernet addressing. -/
theorem c10_datalink_unconstrained (s : Ipv4Addr) (sp : Nat) (d : Ipv4Addr) (dp : Nat)
    (f : Frame) (hsrc : f.ip_src = d) (hdst : f.ip_dest = s)
    (hps : f.tcp_src = dp) (hpd : f.tcp_dest = sp) :
    Tcp.syn_match_spec s sp d dp = Layer.Four
      { network_layer := some
          { datalink_layer := none
            src_addr := some (IpAddr.V4 d)
            dest_addr := some (IpAddr.V4 s) }
        src_port := some dp
        dest_port := some sp } ∧
    Layer.matchesFrame (Tcp.syn_match_spec s sp d dp) f = true := by
  refine ⟨rfl, ?_⟩
  simp [Tcp.syn_match_spec, Layer.matchesFrame, TransportLayer.matchesFrame,
    NetworkLayer.matchesFrame, fieldMatches, hsrc, hdst, hps, hpd]

/-- C10 witness: a frame with arbitrary MAC addresses whose IPv4 addresses
and TCP ports mirror the probe of 192.168.1.1:12345 → 192.168.1.2:80 is
accepted, and the built spec has no datalink context. -/
theorem c10_witness :
    Tcp.syn_match_spec ⟨192, 168, 1, 1⟩ 12345 ⟨192, 168, 1, 2⟩ 80 = Layer.Four
      { network_layer := some
          { datalink_layer := none
            src_addr := some (IpAddr.V4 ⟨192, 168, 1, 2⟩)
            dest_addr := some (IpAddr.V4 ⟨192, 168, 1, 1⟩) }
        src_port := some 80
        dest_port := some 12345 } ∧
    Layer.matchesFrame (Tcp.syn_match_spec ⟨192, 168, 1, 1⟩ 12345 ⟨192, 168, 1, 2⟩ 80)
      ⟨⟨1, 2, 3, 4, 5, 6⟩, ⟨7, 8, 9, 10, 11, 12⟩, ⟨192, 168, 1, 2⟩, ⟨192, 168, 1, 1⟩,
        80, 12345⟩ = true :=
  c10_datalink_unconstrained ⟨192, 168, 1, 1⟩ 12345 ⟨192, 168, 1, 2⟩ 80
    ⟨⟨1, 2, 3, 4, 5, 6⟩, ⟨7, 8, 9, 10, 11, 12⟩, ⟨192, 168, 1, 2⟩, ⟨192, 168, 1, 1⟩,
      80, 12345⟩ rfl rfl rfl rfl
